import Mathlib

/-!
A verification development for the NutriGenie nutrition-guidance engine.

The Python modules `food_database.py`, `nutrition_analyzer.py`,
`food_comparator.py` and `smart_recommendations.py` are embedded shallowly:

* The pandas `DataFrame` holding the food table becomes a `List FoodRow`.
  The backing CSV files are external to the repository, so the table's
  column keys are identified with the record fields of one row type:
  every string column access in the source (`row['food']`,
  `row['food_name']`, `row['Caloric Value']`, `row['calories']`, ...)
  resolves to the corresponding field of `FoodRow`.
* Python floats become `ℚ` (exact arithmetic).
* Code that can raise becomes `Except PandasError`.  In particular,
  `DataFrame.iloc[0]` on an empty selection raises `IndexError` in pandas;
  this is modelled by `Except.error PandasError.indexError`.
* Python dicts iterated by the code become association lists
  (`List (key × value)`); `dict.get(k, 0)` becomes `dictGet`.
-/

namespace NutriGenie

/-- The runtime error raised by pandas positional indexing
(`DataFrame.iloc[0]` on an empty frame). -/
inductive PandasError
  | indexError
deriving DecidableEq, Repr

/-- The nutrient keys the analyzed modules address by name:
the default comparison set of `FoodComparator.compare_foods`
(`calories, fat, carbs, protein, fiber, sodium, vitamin_c, iron`)
together with `calcium` (a key of the daily-totals dict). -/
inductive Nutrient
  | calories
  | fat
  | carbs
  | protein
  | fiber
  | sodium
  | vitamin_c
  | iron
  | calcium
deriving DecidableEq, Repr, Fintype

/-- One row of the loaded food table (the columns the verified claims
touch; remaining columns of the ~30-column schema play no role in any
claim and are omitted from the row type).  `category` and `gluten_free`
are the columns `smart_recommendations.py` and `find_similar_foods`
filter on. -/
structure FoodRow where
  food : String := ""
  calories : ℚ := 0
  fat : ℚ := 0
  carbs : ℚ := 0
  protein : ℚ := 0
  fiber : ℚ := 0
  sodium : ℚ := 0
  vitamin_c : ℚ := 0
  iron : ℚ := 0
  calcium : ℚ := 0
  nutrition_density : ℚ := 0
  category : String := ""
  gluten_free : Bool := false
deriving DecidableEq, Repr, Inhabited

/-- Dynamic attribute access `getattr(record, nutrient, 0)` /
`row[nutrient]` at the nutrient keys the source instantiates. -/
def FoodRow.nval (r : FoodRow) : Nutrient → ℚ
  | .calories => r.calories
  | .fat => r.fat
  | .carbs => r.carbs
  | .protein => r.protein
  | .fiber => r.fiber
  | .sodium => r.sodium
  | .vitamin_c => r.vitamin_c
  | .iron => r.iron
  | .calcium => r.calcium

/-- Python's `str.lower()`: lowercase each character. -/
def pyLower (s : String) : String := String.mk (s.data.map Char.toLower)

/-- `FoodDatabase.get_food_nutrition` (food_database.py lines 136-179).

```
food_name = food_name.lower()
row = self.food_data[self.food_data['food'].str.lower() == food_name].iloc[0]
if row.empty:
    return None
return FoodNutrient(...)
```

`df[mask].iloc[0]` raises `IndexError` when the mask selects no row, so
the `row.empty` guard is unreachable for a missing food; and for a
matching food, `row` is a Series with one entry per column, for which
`row.empty` is `False`.  Hence: no match raises, a match returns the
first matching row (the `FoodNutrient` built from it is a field-by-field
copy of the row). -/
def get_food_nutrition (db : List FoodRow) (food_name : String) : Except PandasError FoodRow :=
  let q := pyLower food_name
  match db.filter (fun r => pyLower r.food == q) with
  | [] => .error .indexError
  | r :: _ => .ok r

/-- The looked-up row, defaulted, used only to state theorems whose
hypotheses guarantee the lookup succeeds. -/
def lookup0 (db : List FoodRow) (food_name : String) : FoodRow :=
  match get_food_nutrition db food_name with
  | .ok r => r
  | .error _ => default

/-- The running-totals dict of `NutritionAnalyzer.analyze_daily_intake`
(fixed key set `{calories, protein, carbs, fat, fiber, vitamin_c, iron,
calcium}`). -/
structure Totals where
  calories : ℚ
  protein : ℚ
  carbs : ℚ
  fat : ℚ
  fiber : ℚ
  vitamin_c : ℚ
  iron : ℚ
  calcium : ℚ
deriving DecidableEq, Repr

/-- The totals dict initialised to all zeros. -/
def initTotals : Totals := ⟨0, 0, 0, 0, 0, 0, 0, 0⟩

/-- The body of the accumulation loop: scale every tracked nutrient by
`quantity / 100` and add it to the running totals. -/
def addScaled (t : Totals) (n : FoodRow) (quantity : ℚ) : Totals :=
  let scale_factor := quantity / 100
  { calories := t.calories + n.calories * scale_factor
    protein := t.protein + n.protein * scale_factor
    carbs := t.carbs + n.carbs * scale_factor
    fat := t.fat + n.fat * scale_factor
    fiber := t.fiber + n.fiber * scale_factor
    vitamin_c := t.vitamin_c + n.vitamin_c * scale_factor
    iron := t.iron + n.iron * scale_factor
    calcium := t.calcium + n.calcium * scale_factor }

/-- One iteration of `analyze_daily_intake`'s loop.  The lookup can
raise (see `get_food_nutrition`); when it returns, the result is a
dataclass instance, which is always truthy, so the source's
`if nutrition:` guard is always taken. -/
def analyzeStep (db : List FoodRow) (t : Totals) (e : String × ℚ) : Except PandasError Totals := do
  let nutrition ← get_food_nutrition db e.1
  pure (addScaled t nutrition e.2)

/-- `NutritionAnalyzer.analyze_daily_intake` (nutrition_analyzer.py
lines 8-29): `for food, quantity in zip(consumed_foods, quantities):`
look the food up and accumulate its scaled nutrients.  An exception
raised by the lookup propagates and aborts the whole aggregation. -/
def analyze_daily_intake (db : List FoodRow) (consumed_foods : List String)
    (quantities : List ℚ) : Except PandasError Totals :=
  (consumed_foods.zip quantities).foldlM (analyzeStep db) initTotals

/-- `dict.get(key, 0)` over an association list (Python dicts carry
unique keys; theorems that need uniqueness assume `Nodup` on the key
column). -/
def dictGet (l : List (Nutrient × ℚ)) (n : Nutrient) : ℚ :=
  match l.find? (fun p => p.1 == n) with
  | some p => p.2
  | none => 0

/-- One emitted gap record of `identify_nutritional_gaps`. -/
structure Gap where
  current : ℚ
  target : ℚ
  deficit : ℚ
  percentage : ℚ
deriving DecidableEq, Repr

/-- `NutritionAnalyzer.identify_nutritional_gaps` (nutrition_analyzer.py
lines 31-45): for each `(nutrient, target)` of the targets dict, with
`current = intake.get(nutrient, 0)`, emit a gap record exactly when
`current < target * 0.8`. -/
def identify_nutritional_gaps (intake targets : List (Nutrient × ℚ)) : List (Nutrient × Gap) :=
  targets.filterMap (fun p =>
    let current := dictGet intake p.1
    if current < p.2 * 0.8 then
      some (p.1, { current := current, target := p.2, deficit := p.2 - current,
                   percentage := current / p.2 * 100 })
    else none)

/-- One per-nutrient entry of a `FoodComparator.compare_foods` result. -/
structure NutrientComparison where
  food1_value : ℚ
  food2_value : ℚ
  difference : ℚ
  percentage_diff : ℚ
  better_food : String
deriving DecidableEq, Repr

/-- The default nutrient list of `compare_foods` (food_comparator.py
line 27). -/
def defaultCompareNutrients : List Nutrient :=
  [.calories, .fat, .carbs, .protein, .fiber, .sodium, .vitamin_c, .iron]

/-- The loop body of `compare_foods` (food_comparator.py lines 43-59):
percentage difference is 0 when both values are 0, `(v1-v2)/v2*100` when
`v2 != 0`, and 100 otherwise; the food with positive percentage
difference is designated `better_food` (else `food2`). -/
def compareNutrient (food1_nutrition food2_nutrition : FoodRow) (food1 food2 : String)
    (nut : Nutrient) : NutrientComparison :=
  let value1 := food1_nutrition.nval nut
  let value2 := food2_nutrition.nval nut
  let diff_percent : ℚ :=
    if value1 = 0 ∧ value2 = 0 then 0
    else if value2 ≠ 0 then (value1 - value2) / value2 * 100 else 100
  { food1_value := value1
    food2_value := value2
    difference := value1 - value2
    percentage_diff := diff_percent
    better_food := if diff_percent > 0 then food1 else food2 }

/-- `FoodComparator.compare_foods` (food_comparator.py lines 15-61).
Both lookups go through `get_food_nutrition`, which raises on a missing
food, so the source's `if ... is None: raise ValueError` guard is
unreachable; the comparison dict (keyed by nutrient) becomes the
association list in nutrient-list order. -/
def compare_foods (db : List FoodRow) (food1 food2 : String) (nutrients : List Nutrient) :
    Except PandasError (List (Nutrient × NutrientComparison)) := do
  let food1_nutrition ← get_food_nutrition db food1
  let food2_nutrition ← get_food_nutrition db food2
  pure (nutrients.map (fun nut =>
    (nut, compareNutrient food1_nutrition food2_nutrition food1 food2 nut)))

/-- The fixed 5-nutrient subset of `find_similar_foods`
(food_comparator.py line 89). -/
def simNutrients : List Nutrient := [.calories, .protein, .fat, .carbs, .fiber]

/-- The similarity score of `find_similar_foods`: sum of absolute
differences over `simNutrients`. -/
def similarityScore (target_nutrition r : FoodRow) : ℚ :=
  simNutrients.foldl (fun score nut => score + |target_nutrition.nval nut - r.nval nut|) 0

/-- The `similarities` list built by `find_similar_foods`: every row of
the (optionally category-filtered) table except those whose stored name
equals the query exactly, paired with its score, in table order. -/
def similarities (target_nutrition : FoodRow) (all_foods : List FoodRow) (food : String) :
    List (String × ℚ) :=
  (all_foods.filter (fun r => r.food ≠ food)).map (fun r => (r.food, similarityScore target_nutrition r))

/-- The optional category restriction of `find_similar_foods`
(`all_foods = all_foods[all_foods['category'] == category]` when a
category is given). -/
def categoryFilter (db : List FoodRow) (category : Option String) : List FoodRow :=
  match category with
  | some c => db.filter (fun r => r.category == c)
  | none => db

/-- `FoodComparator.find_similar_foods` (food_comparator.py lines
63-98).  The target lookup raises on a missing food (so the
`return []` branch guarding `None` is unreachable); the self-exclusion
`if row['food_name'] == food: continue` compares names exactly
(case-sensitively); `similarities.sort(key=lambda x: x[1])` is a stable
ascending sort by score, then the first `max_results` names are
returned. -/
def find_similar_foods (db : List FoodRow) (food : String) (category : Option String)
    (max_results : Nat) : Except PandasError (List String) := do
  let target_nutrition ← get_food_nutrition db food
  let all_foods := categoryFilter db category
  let sorted := (similarities target_nutrition all_foods food).mergeSort
    (fun a b => decide (a.2 ≤ b.2))
  pure ((sorted.take max_results).map Prod.fst)

/-- The user-profile record handed to `SmartRecommendations`; the keys
`_calculate_nutritional_gaps` reads with mandatory dict indexing. -/
structure UserProfile where
  age : ℚ
  weight : ℚ
  height : ℚ
  gender : String
  activity_level : String
deriving Repr

/-- The activity-multiplier dict of `_calculate_calorie_needs`
(smart_recommendations.py lines 172-180), looked up with default
1.55. -/
def activity_multipliers (s : String) : ℚ :=
  if s = "sedentary" then 1.2
  else if s = "light" then 1.375
  else if s = "moderate" then 1.55
  else if s = "heavy" then 1.725
  else if s = "very_heavy" then 1.9
  else 1.55

/-- `SmartRecommendations._calculate_calorie_needs` (lines 156-180):
Mifflin-St Jeor BMR times the activity multiplier. -/
def calculate_calorie_needs (age weight height : ℚ) (gender activity_level : String) : ℚ :=
  let bmr := if pyLower gender = "male" then 10 * weight + 6.25 * height - 5 * age + 5
    else 10 * weight + 6.25 * height - 5 * age - 161
  bmr * activity_multipliers (pyLower activity_level)

/-- `SmartRecommendations._calculate_protein_needs` (lines 182-185). -/
def calculate_protein_needs (weight : ℚ) : ℚ := weight * 1.0

/-- `SmartRecommendations._calculate_nutritional_gaps` (lines 101-120):
a dict with exactly the keys `calories`, `protein`, `fiber`, each a raw
difference `need - current` (fiber need fixed at 25). -/
def calculate_nutritional_gaps (current_nutrition : Totals) (p : UserProfile) :
    List (Nutrient × ℚ) :=
  [(.calories, calculate_calorie_needs p.age p.weight p.height p.gender p.activity_level
      - current_nutrition.calories),
   (.protein, calculate_protein_needs p.weight - current_nutrition.protein),
   (.fiber, 25 - current_nutrition.fiber)]

/-- `SmartRecommendations._addresses_nutritional_gaps` (lines 122-134):
collect `value/gap` for each positive gap the food contributes a
positive value to; the food qualifies when the list is non-empty and
its maximum exceeds 0.1. -/
def addresses_nutritional_gaps (food : FoodRow) (gaps : List (Nutrient × ℚ)) : Bool :=
  let scores := gaps.filterMap (fun g =>
    if 0 < g.2 then
      if 0 < food.nval g.1 then some (food.nval g.1 / g.2) else none
    else none)
  match scores with
  | [] => false
  | s :: rest => decide ((0.1 : ℚ) < rest.foldl max s)

/-- The nutrient list `_is_similar_to_current_intake` passes to
`compare_foods` (line 142). -/
def similarityCompareNutrients : List Nutrient := [.calories, .protein, .fat, .carbs]

/-- The dict access `comparison['calories']['percentage_diff']`; the
`calories` key is always present in the comparisons this code builds. -/
def caloriesPercentageDiff (c : List (Nutrient × NutrientComparison)) : ℚ :=
  match c.find? (fun e => e.1 == Nutrient.calories) with
  | some e => e.2.percentage_diff
  | none => 0

/-- `SmartRecommendations._is_similar_to_current_intake` (lines
136-145): the food is "too similar" when its calorie
percentage-difference to ANY current-intake item is under 20.  The
nested `compare_foods` call raises when an intake food is missing from
the table. -/
def is_similar_to_current_intake (db : List FoodRow) (food : FoodRow) :
    List (String × ℚ) → Except PandasError Bool
  | [] => .ok false
  | intake :: rest => do
    let c ← compare_foods db food.food intake.1 similarityCompareNutrients
    if caloriesPercentageDiff c < 20 then pure true
    else is_similar_to_current_intake db food rest

/-- `SmartRecommendations._nutritional_gap_score` (lines 147-154): sum
of `value/gap` over the positive gaps. -/
def nutritional_gap_score (food : FoodRow) (gaps : List (Nutrient × ℚ)) : ℚ :=
  gaps.foldl (fun score g => if 0 < g.2 then score + food.nval g.1 / g.2 else score) 0

/-- One pass of the dietary-restriction filtering loop (lines 58-65);
an unrecognized restriction leaves the table unchanged. -/
def applyRestriction (foods : List FoodRow) (restriction : String) : List FoodRow :=
  if restriction = "gluten-free" then foods.filter (fun r => r.gluten_free)
  else if restriction = "vegan" then
    foods.filter (fun r => ["vegetables", "fruits", "legumes"].contains r.category)
  else if restriction = "dairy-free" then foods.filter (fun r => r.category ≠ "dairy")
  else foods

/-- The candidate-collection loop of `get_personalized_recommendations`
(lines 68-82): walk the table in order, skip foods that fail
`_addresses_nutritional_gaps` or are too similar to the current intake,
append survivors, and break as soon as the accumulated list reaches
`num_recommendations * 2` entries (checked after each append, so one
survivor is collected even when the limit is 0). -/
def collectRecommended (db : List FoodRow) (gaps : List (Nutrient × ℚ))
    (current_intake : List (String × ℚ)) (limit : Nat) :
    List FoodRow → List FoodRow → Except PandasError (List FoodRow)
  | [], acc => .ok acc.reverse
  | row :: rest, acc =>
    if addresses_nutritional_gaps row gaps then do
      let sim ← is_similar_to_current_intake db row current_intake
      if sim then collectRecommended db gaps current_intake limit rest acc
      else
        if limit ≤ acc.length + 1 then .ok (row :: acc).reverse
        else collectRecommended db gaps current_intake limit rest (row :: acc)
    else collectRecommended db gaps current_intake limit rest acc

/-- The per-recommendation summary dict (lines 91-99). -/
structure FoodSummary where
  food_name : String
  calories : ℚ
  protein : ℚ
  carbs : ℚ
  fat : ℚ
  fiber : ℚ
  category : String
deriving DecidableEq, Repr

/-- The summary built from one recommended row. -/
def toSummary (r : FoodRow) : FoodSummary :=
  ⟨r.food, r.calories, r.protein, r.carbs, r.fat, r.fiber, r.category⟩

/-- `SmartRecommendations.get_personalized_recommendations`
(smart_recommendations.py lines 20-99): aggregate the intake, compute
the three raw gaps, filter by restrictions, collect at most
`num_recommendations * 2` surviving candidates (stopping early), sort
them descending by `_nutritional_gap_score` (Python's stable sort with
`reverse=True` keeps ties in collection order), and return the first
`num_recommendations` summaries.  The locals read with
`user_profile.get(...)` at lines 45-49 are never used afterwards and
are not modelled. -/
def get_personalized_recommendations (db : List FoodRow) (p : UserProfile)
    (current_intake : List (String × ℚ)) (dietary_restrictions : List String)
    (num_recommendations : Nat) : Except PandasError (List FoodSummary) := do
  let current_nutrition ← analyze_daily_intake db
    (current_intake.map Prod.fst) (current_intake.map Prod.snd)
  let nutritional_gaps := calculate_nutritional_gaps current_nutrition p
  let all_foods := dietary_restrictions.foldl applyRestriction db
  let recommended ← collectRecommended db nutritional_gaps current_intake
    (num_recommendations * 2) all_foods []
  let sorted := recommended.mergeSort (fun a b =>
    decide (nutritional_gap_score b nutritional_gaps ≤ nutritional_gap_score a nutritional_gaps))
  pure ((sorted.take num_recommendations).map toSummary)

/-- Modelled from the claim's words (refinement reference for the
recommendation pipeline): ALL candidates surviving the two filters, in
table order, with no early stop. -/
def filterSurvivors (db : List FoodRow) (gaps : List (Nutrient × ℚ))
    (current_intake : List (String × ℚ)) :
    List FoodRow → Except PandasError (List FoodRow)
  | [] => .ok []
  | row :: rest =>
    if addresses_nutritional_gaps row gaps then do
      let sim ← is_similar_to_current_intake db row current_intake
      let tail ← filterSurvivors db gaps current_intake rest
      if sim then pure tail else pure (row :: tail)
    else filterSurvivors db gaps current_intake rest

/-- Modelled from the claim's words (C8 as stated): score EVERY
candidate surviving the filters, sort all of them descending by score,
return the top `count`. -/
def claimed_recommendations (db : List FoodRow) (p : UserProfile)
    (current_intake : List (String × ℚ)) (dietary_restrictions : List String)
    (num_recommendations : Nat) : Except PandasError (List FoodSummary) := do
  let current_nutrition ← analyze_daily_intake db
    (current_intake.map Prod.fst) (current_intake.map Prod.snd)
  let nutritional_gaps := calculate_nutritional_gaps current_nutrition p
  let all_foods := dietary_restrictions.foldl applyRestriction db
  let survivors ← filterSurvivors db nutritional_gaps current_intake all_foods
  let sorted := survivors.mergeSort (fun a b =>
    decide (nutritional_gap_score b nutritional_gaps ≤ nutritional_gap_score a nutritional_gaps))
  pure ((sorted.take num_recommendations).map toSummary)

/-- The Apple row of the spec's worked scenario
(calories 52, protein 0.3, carbs 14, fat 0.2, fiber 2.4). -/
def appleRow : FoodRow :=
  { food := "Apple", calories := 52, protein := 0.3, carbs := 14, fat := 0.2, fiber := 2.4 }

/-- The Banana row of the spec's worked scenario
(calories 89, protein 1.1, carbs 23, fat 0.3, fiber 2.6). -/
def bananaRow : FoodRow :=
  { food := "Banana", calories := 89, protein := 1.1, carbs := 23, fat := 0.3, fiber := 2.6 }

/-- A two-row catalog for concrete evaluations. -/
def dbAB : List FoodRow := [appleRow, bananaRow]

/-- Fiber-only candidate rows for exercising the recommendation
pipeline (fiber 5, 7.5 and 25 g: gap ratios 0.2, 0.3 and 1.0 against
the default 25 g fiber need). -/
def rowA : FoodRow := { food := "FoodA", fiber := 5 }

/-- See `rowA`. -/
def rowB : FoodRow := { food := "FoodB", fiber := 7.5 }

/-- See `rowA`. -/
def rowC : FoodRow := { food := "FoodC", fiber := 25 }

/-- Three-row catalog whose last row scores highest. -/
def dbABC : List FoodRow := [rowA, rowB, rowC]

/-- A concrete profile (male, 30 y, 70 kg, 170 cm, moderate). -/
def profileM : UserProfile :=
  { age := 30, weight := 70, height := 170, gender := "male", activity_level := "moderate" }

/-! ## Helper lemmas -/

theorem exceptBind_ok (a : α) (f : α → Except ε β) : (Except.ok a >>= f) = f a := rfl

theorem exceptBind_error (e : ε) (f : α → Except ε β) :
    ((Except.error e : Except ε α) >>= f) = Except.error e := rfl

theorem exceptPure (a : α) : (pure a : Except ε α) = Except.ok a := rfl

theorem pyLower_Apple : pyLower "Apple" = "apple" := by decide

theorem pyLower_aPPlE : pyLower "aPPlE" = "apple" := by decide

theorem pyLower_burger : pyLower "burger" = "burger" := by decide

theorem pyLower_Banana : pyLower "Banana" = "banana" := by decide

/-! ## Claim theorems -/

/-- C1: the catalog lookup does NOT fail with the absent result on a
missing name.  At the failing input `"burger"` against a catalog
holding only Apple and Banana, `get_food_nutrition` raises
`IndexError` (from `.iloc[0]` on an empty selection; the
`row.empty -> None` guard is unreachable), while a matching name does
return that row's record (case-insensitively). -/
theorem get_food_nutrition_missing_raises :
    get_food_nutrition dbAB "burger" = .error PandasError.indexError ∧
    get_food_nutrition dbAB "Apple" = .ok appleRow ∧
    get_food_nutrition dbAB "aPPlE" = .ok appleRow := by
  refine ⟨?_, ?_, ?_⟩ <;>
    simp [get_food_nutrition, dbAB, appleRow, bananaRow, pyLower_Apple, pyLower_Banana,
      pyLower_burger, pyLower_aPPlE]

/-- C2: aggregation DOES fail as a whole when an entry's food name is
not in the catalog: the lookup inside the loop raises `IndexError`,
which propagates out of `analyze_daily_intake` instead of the entry
being skipped (the `if nutrition:` skip-guard is unreachable for a
missing food).  With only known foods the accumulation does work
(the spec scenario: 200 g of Apple gives 104 calories). -/
theorem analyze_daily_intake_unknown_food_raises :
    analyze_daily_intake dbAB ["burger", "Apple"] [100, 100] = .error PandasError.indexError ∧
    analyze_daily_intake dbAB ["Apple"] [200] =
      .ok { calories := 104, protein := 0.6, carbs := 28, fat := 0.4, fiber := 4.8,
            vitamin_c := 0, iron := 0, calcium := 0 } := by
  constructor
  · simp [analyze_daily_intake, analyzeStep, get_food_nutrition, dbAB, appleRow, bananaRow,
      pyLower_Apple, pyLower_Banana, pyLower_burger, exceptBind_ok, exceptBind_error, exceptPure]
  · norm_num [analyze_daily_intake, analyzeStep, get_food_nutrition, dbAB, appleRow, bananaRow,
      pyLower_Apple, pyLower_Banana, addScaled, initTotals, exceptBind_ok, exceptBind_error,
      exceptPure]

theorem assoc_value_unique {β : Type} :
    ∀ (l : List (Nutrient × β)) (a : Nutrient) (b1 b2 : β),
      (l.map Prod.fst).Nodup → (a, b1) ∈ l → (a, b2) ∈ l → b1 = b2
  | [], a, b1, b2, _, h1, _ => absurd h1 (List.not_mem_nil _)
  | p :: rest, a, b1, b2, hnd, h1, h2 => by
    simp only [List.map_cons, List.nodup_cons] at hnd
    rcases List.mem_cons.mp h1 with he1 | hm1 <;> rcases List.mem_cons.mp h2 with he2 | hm2
    · exact congrArg Prod.snd (he1.trans he2.symm)
    · rw [← he1] at hnd
      exact absurd (List.mem_map.mpr ⟨(a, b2), hm2, rfl⟩) hnd.1
    · rw [← he2] at hnd
      exact absurd (List.mem_map.mpr ⟨(a, b1), hm1, rfl⟩) hnd.1
    · exact assoc_value_unique rest a b1 b2 hnd.2 hm1 hm2

/-- C4: for every totals map and targets map with positive targets,
`identify_nutritional_gaps` emits a nutrient exactly when its current
value (0 when absent) is strictly below 0.8 times its target, and the
emitted record carries current, target, deficit = target - current and
percentage = 100 * current / target. -/
theorem identify_nutritional_gaps_spec (intake targets : List (Nutrient × ℚ))
    (hpos : ∀ p ∈ targets, (0:ℚ) < p.2) :
    ∀ (n : Nutrient) (g : Gap),
      (n, g) ∈ identify_nutritional_gaps intake targets ↔
        ∃ t, (n, t) ∈ targets ∧ dictGet intake n < 0.8 * t ∧
          g = { current := dictGet intake n, target := t, deficit := t - dictGet intake n,
                percentage := 100 * dictGet intake n / t } := by
  intro n g
  simp only [identify_nutritional_gaps, List.mem_filterMap]
  constructor
  · rintro ⟨p, hp, hsome⟩
    by_cases hc : dictGet intake p.1 < p.2 * 0.8
    · rw [if_pos hc] at hsome
      simp only [Option.some.injEq, Prod.mk.injEq] at hsome
      obtain ⟨h1, h2⟩ := hsome
      subst h1
      refine ⟨p.2, by rw [Prod.mk.eta]; exact hp, by rw [mul_comm]; exact hc, ?_⟩
      rw [← h2]
      congr 1
      ring
    · rw [if_neg hc] at hsome
      exact absurd hsome (by simp)
  · rintro ⟨t, ht, hlt, hg⟩
    refine ⟨(n, t), ht, ?_⟩
    rw [if_pos (by rw [mul_comm]; exact hlt)]
    subst hg
    have hrec : ({ current := dictGet intake n, target := t, deficit := t - dictGet intake n, percentage := dictGet intake n / t * 100 } : Gap) = { current := dictGet intake n, target := t, deficit := t - dictGet intake n, percentage := 100 * dictGet intake n / t } := by
      congr 1
      ring
    rw [hrec]

/-- C10: a zero-valued target never yields a flagged gap when the
current value is non-negative: the threshold test `current < 0 * 0.8`
fails first, so the division `current / target` branch is never taken
and the nutrient is absent from the result. -/
theorem identify_nutritional_gaps_zero_target (intake targets : List (Nutrient × ℚ)) (n : Nutrient)
    (hmem : (n, (0:ℚ)) ∈ targets) (hnodup : (targets.map Prod.fst).Nodup)
    (hcur : 0 ≤ dictGet intake n) :
    ∀ g : Gap, (n, g) ∉ identify_nutritional_gaps intake targets := by
  intro g hg
  simp only [identify_nutritional_gaps, List.mem_filterMap] at hg
  obtain ⟨p, hp, hsome⟩ := hg
  by_cases hc : dictGet intake p.1 < p.2 * 0.8
  · rw [if_pos hc] at hsome
    simp only [Option.some.injEq, Prod.mk.injEq] at hsome
    obtain ⟨h1, -⟩ := hsome
    subst h1
    have hz : p.2 = 0 := by
      refine assoc_value_unique targets p.1 p.2 0 hnodup ?_ hmem
      rw [Prod.mk.eta]
      exact hp
    rw [hz] at hc
    norm_num at hc
    exact absurd hcur (not_le.mpr hc)
  · rw [if_neg hc] at hsome
    exact absurd hsome (by simp)

/-- Witness for C4 (the spec scenario: target 2000, current 1000 is
flagged with percentage 50). -/
theorem identify_nutritional_gaps_spec_witness :
    (Nutrient.calories,
      ({ current := 1000, target := 2000, deficit := 1000, percentage := 50 } : Gap)) ∈
      identify_nutritional_gaps [(Nutrient.calories, 1000)] [(Nutrient.calories, 2000)] := by
  refine ((identify_nutritional_gaps_spec _ _ ?_) Nutrient.calories _).mpr ⟨2000, by simp, ?_, ?_⟩
  · intro p hp
    simp only [List.mem_singleton] at hp
    rw [hp]
    norm_num
  · norm_num [dictGet]
  · norm_num [dictGet]

/-- Witness for C10: a zero fiber target with current 3 is not
flagged. -/
theorem identify_nutritional_gaps_zero_target_witness :
    (Nutrient.fiber,
      ({ current := 3, target := 0, deficit := -3, percentage := 0 } : Gap)) ∉
      identify_nutritional_gaps [(Nutrient.fiber, 3)] [(Nutrient.fiber, 0)] :=
  identify_nutritional_gaps_zero_target _ _ Nutrient.fiber (by simp) (by simp)
    (by norm_num [dictGet]) _

theorem pyLower_lc_apple : pyLower "apple" = "apple" := by decide

theorem lookup_dbAB_Apple : get_food_nutrition dbAB "Apple" = .ok appleRow := by
  simp [get_food_nutrition, dbAB, appleRow, bananaRow, pyLower_Apple, pyLower_Banana]

theorem lookup_dbAB_Banana : get_food_nutrition dbAB "Banana" = .ok bananaRow := by
  simp [get_food_nutrition, dbAB, appleRow, bananaRow, pyLower_Apple, pyLower_Banana]

theorem lookup_dbAB_lc_apple : get_food_nutrition dbAB "apple" = .ok appleRow := by
  simp [get_food_nutrition, dbAB, appleRow, bananaRow, pyLower_Apple, pyLower_Banana,
    pyLower_lc_apple]

theorem appleRow_nval_nonneg : ∀ n, 0 ≤ appleRow.nval n := by
  intro n
  cases n <;> norm_num [FoodRow.nval, appleRow]

theorem bananaRow_nval_nonneg : ∀ n, 0 ≤ bananaRow.nval n := by
  intro n
  cases n <;> norm_num [FoodRow.nval, bananaRow]

theorem compareNutrient_better_left (ra rb : FoodRow) (A B : String) (n : Nutrient)
    (h2 : 0 ≤ rb.nval n) (hlt : rb.nval n < ra.nval n) :
    (compareNutrient ra rb A B n).better_food = A := by
  have hv1 : 0 < ra.nval n := lt_of_le_of_lt h2 hlt
  have hand : ¬(ra.nval n = 0 ∧ rb.nval n = 0) := fun h => absurd h.1 (ne_of_gt hv1)
  simp only [compareNutrient]
  rw [if_neg hand]
  by_cases hz : rb.nval n = 0
  · rw [if_neg (not_not.mpr hz), if_pos (by norm_num : (100:ℚ) > 0)]
  · have hb : 0 < rb.nval n := lt_of_le_of_ne h2 (Ne.symm hz)
    rw [if_pos hz, if_pos (mul_pos (div_pos (sub_pos.mpr hlt) hb) (by norm_num : (0:ℚ) < 100))]

theorem compareNutrient_better_right (ra rb : FoodRow) (A B : String) (n : Nutrient)
    (h1 : 0 ≤ ra.nval n) (hlt : ra.nval n < rb.nval n) :
    (compareNutrient ra rb A B n).better_food = B := by
  have hb : 0 < rb.nval n := lt_of_le_of_lt h1 hlt
  have hand : ¬(ra.nval n = 0 ∧ rb.nval n = 0) := fun h => absurd h.2 (ne_of_gt hb)
  have hneg : (ra.nval n - rb.nval n) / rb.nval n * 100 < 0 :=
    mul_neg_of_neg_of_pos (div_neg_of_neg_of_pos (sub_neg.mpr hlt) hb) (by norm_num)
  simp only [compareNutrient]
  rw [if_neg hand, if_pos (ne_of_gt hb), if_neg (not_lt.mpr (le_of_lt hneg))]

/-- C5: when both foods are present in the catalog, `compare_foods`
returns the per-nutrient comparison list, the per-nutrient difference is
antisymmetric (`compare(A,B)[n].difference = -compare(B,A)[n].difference`)
and `compare(A,A)[n].difference = 0` for every nutrient. -/
theorem compare_foods_difference_antisymm (db : List FoodRow) (A B : String)
    (ra rb : FoodRow) (nuts : List Nutrient)
    (hA : get_food_nutrition db A = .ok ra) (hB : get_food_nutrition db B = .ok rb) :
    compare_foods db A B nuts = .ok (nuts.map (fun n => (n, compareNutrient ra rb A B n))) ∧
    compare_foods db B A nuts = .ok (nuts.map (fun n => (n, compareNutrient rb ra B A n))) ∧
    compare_foods db A A nuts = .ok (nuts.map (fun n => (n, compareNutrient ra ra A A n))) ∧
    (∀ n, (compareNutrient ra rb A B n).difference =
      -((compareNutrient rb ra B A n).difference)) ∧
    (∀ n, (compareNutrient ra ra A A n).difference = 0) := by
  refine ⟨?_, ?_, ?_, ?_, ?_⟩
  · simp [compare_foods, hA, hB, exceptBind_ok, exceptPure]
  · simp [compare_foods, hA, hB, exceptBind_ok, exceptPure]
  · simp [compare_foods, hA, exceptBind_ok, exceptPure]
  · intro n
    simp only [compareNutrient]
    ring
  · intro n
    simp only [compareNutrient]
    ring

/-- Witness for C5 at the Apple/Banana catalog. -/
theorem compare_foods_difference_antisymm_witness :
    compare_foods dbAB "Apple" "Banana" defaultCompareNutrients =
      .ok (defaultCompareNutrients.map
        (fun n => (n, compareNutrient appleRow bananaRow "Apple" "Banana" n))) ∧
    (compareNutrient appleRow bananaRow "Apple" "Banana" Nutrient.calories).difference =
      -((compareNutrient bananaRow appleRow "Banana" "Apple" Nutrient.calories).difference) := by
  have h := compare_foods_difference_antisymm dbAB "Apple" "Banana" appleRow bananaRow
    defaultCompareNutrients lookup_dbAB_Apple lookup_dbAB_Banana
  exact ⟨h.1, h.2.2.2.1 Nutrient.calories⟩

/-- C6: for catalog foods (non-negative nutrient values), the
comparison designates as `better_food` whichever food has the strictly
larger value for that nutrient, and the designation follows the sign of
the percentage difference. -/
theorem compare_foods_better_food (db : List FoodRow) (A B : String) (ra rb : FoodRow)
    (nuts : List Nutrient)
    (hA : get_food_nutrition db A = .ok ra) (hB : get_food_nutrition db B = .ok rb)
    (hra : ∀ n, 0 ≤ ra.nval n) (hrb : ∀ n, 0 ≤ rb.nval n) :
    compare_foods db A B nuts = .ok (nuts.map (fun n => (n, compareNutrient ra rb A B n))) ∧
    ∀ n : Nutrient,
      (rb.nval n < ra.nval n → (compareNutrient ra rb A B n).better_food = A) ∧
      (ra.nval n < rb.nval n → (compareNutrient ra rb A B n).better_food = B) ∧
      ((compareNutrient ra rb A B n).better_food =
        if 0 < (compareNutrient ra rb A B n).percentage_diff then A else B) := by
  refine ⟨by simp [compare_foods, hA, hB, exceptBind_ok, exceptPure], ?_⟩
  intro n
  refine ⟨fun hlt => compareNutrient_better_left ra rb A B n (hrb n) hlt,
    fun hlt => compareNutrient_better_right ra rb A B n (hra n) hlt, ?_⟩
  simp only [compareNutrient]

/-- Witness for C6: the spec scenario
`compare("Apple","Banana")["calories"] = {52, 89, -37, better "Banana"}`. -/
theorem compare_foods_better_food_witness :
    compare_foods dbAB "Apple" "Banana" defaultCompareNutrients =
      .ok (defaultCompareNutrients.map
        (fun n => (n, compareNutrient appleRow bananaRow "Apple" "Banana" n))) ∧
    (compareNutrient appleRow bananaRow "Apple" "Banana" Nutrient.calories).food1_value = 52 ∧
    (compareNutrient appleRow bananaRow "Apple" "Banana" Nutrient.calories).food2_value = 89 ∧
    (compareNutrient appleRow bananaRow "Apple" "Banana" Nutrient.calories).difference = -37 ∧
    (compareNutrient appleRow bananaRow "Apple" "Banana" Nutrient.calories).better_food =
      "Banana" := by
  have h := compare_foods_better_food dbAB "Apple" "Banana" appleRow bananaRow
    defaultCompareNutrients lookup_dbAB_Apple lookup_dbAB_Banana
    appleRow_nval_nonneg bananaRow_nval_nonneg
  refine ⟨h.1, ?_, ?_, ?_,
    (h.2 Nutrient.calories).2.1 (by norm_num [FoodRow.nval, appleRow, bananaRow])⟩
  · norm_num [compareNutrient, FoodRow.nval, appleRow, bananaRow]
  · norm_num [compareNutrient, FoodRow.nval, appleRow, bananaRow]
  · norm_num [compareNutrient, FoodRow.nval, appleRow, bananaRow]

/-- The sum characterization of the accumulation fold, with an
arbitrary starting accumulator. -/
theorem foldlM_analyzeStep (db : List FoodRow) :
    ∀ (entries : List (String × ℚ)) (t : Totals),
      (∀ p ∈ entries, ∃ r, get_food_nutrition db p.1 = .ok r) →
      entries.foldlM (analyzeStep db) t = .ok
        { calories := t.calories +
            (entries.map (fun p => (lookup0 db p.1).calories * (p.2 / 100))).sum
          protein := t.protein +
            (entries.map (fun p => (lookup0 db p.1).protein * (p.2 / 100))).sum
          carbs := t.carbs +
            (entries.map (fun p => (lookup0 db p.1).carbs * (p.2 / 100))).sum
          fat := t.fat +
            (entries.map (fun p => (lookup0 db p.1).fat * (p.2 / 100))).sum
          fiber := t.fiber +
            (entries.map (fun p => (lookup0 db p.1).fiber * (p.2 / 100))).sum
          vitamin_c := t.vitamin_c +
            (entries.map (fun p => (lookup0 db p.1).vitamin_c * (p.2 / 100))).sum
          iron := t.iron +
            (entries.map (fun p => (lookup0 db p.1).iron * (p.2 / 100))).sum
          calcium := t.calcium +
            (entries.map (fun p => (lookup0 db p.1).calcium * (p.2 / 100))).sum }
  | [], t, _ => by
    simp only [List.foldlM_nil, List.map_nil, List.sum_nil, add_zero]
    rfl
  | e :: rest, t, h => by
    obtain ⟨r, hr⟩ := h e (List.mem_cons_self e rest)
    have hrest := fun p hp => h p (List.mem_cons_of_mem e hp)
    have hstep : analyzeStep db t e = .ok (addScaled t r e.2) := by
      simp [analyzeStep, hr, exceptBind_ok, exceptPure]
    have hl : lookup0 db e.1 = r := by simp [lookup0, hr]
    rw [List.foldlM_cons, hstep, exceptBind_ok,
      foldlM_analyzeStep db rest (addScaled t r e.2) hrest]
    simp only [List.map_cons, List.sum_cons, addScaled, hl]
    congr 1
    congr 1 <;> ring

/-- C3: when every entry's food is present in the catalog, the
aggregated totals equal, for each of the 8 tracked nutrients, the sum
over entries of `lookup(food).nutrient * grams/100`; and permuting the
entry list yields identical totals. -/
theorem analyze_daily_intake_totals (db : List FoodRow) (foods : List String) (qtys : List ℚ)
    (h : ∀ p ∈ foods.zip qtys, ∃ r, get_food_nutrition db p.1 = .ok r) :
    analyze_daily_intake db foods qtys = .ok
      { calories := ((foods.zip qtys).map (fun p => (lookup0 db p.1).calories * (p.2 / 100))).sum
        protein := ((foods.zip qtys).map (fun p => (lookup0 db p.1).protein * (p.2 / 100))).sum
        carbs := ((foods.zip qtys).map (fun p => (lookup0 db p.1).carbs * (p.2 / 100))).sum
        fat := ((foods.zip qtys).map (fun p => (lookup0 db p.1).fat * (p.2 / 100))).sum
        fiber := ((foods.zip qtys).map (fun p => (lookup0 db p.1).fiber * (p.2 / 100))).sum
        vitamin_c := ((foods.zip qtys).map
          (fun p => (lookup0 db p.1).vitamin_c * (p.2 / 100))).sum
        iron := ((foods.zip qtys).map (fun p => (lookup0 db p.1).iron * (p.2 / 100))).sum
        calcium := ((foods.zip qtys).map
          (fun p => (lookup0 db p.1).calcium * (p.2 / 100))).sum } ∧
    ∀ (foods2 : List String) (qtys2 : List ℚ), (foods2.zip qtys2).Perm (foods.zip qtys) →
      analyze_daily_intake db foods2 qtys2 = analyze_daily_intake db foods qtys := by
  constructor
  · rw [analyze_daily_intake, foldlM_analyzeStep db (foods.zip qtys) initTotals h]
    simp [initTotals]
  · intro foods2 qtys2 hperm
    have h2 : ∀ p ∈ foods2.zip qtys2, ∃ r, get_food_nutrition db p.1 = .ok r :=
      fun p hp => h p (hperm.mem_iff.mp hp)
    rw [analyze_daily_intake, analyze_daily_intake,
      foldlM_analyzeStep db _ initTotals h2, foldlM_analyzeStep db _ initTotals h]
    congr 1
    congr 1 <;> exact congrArg (initTotals.calories + ·) ((hperm.map _).sum_eq) |>.trans rfl

/-- Witness for C3 at a concrete two-entry intake, including a
transposed entry order. -/
theorem analyze_daily_intake_totals_witness :
    analyze_daily_intake dbAB ["Apple", "Banana"] [100, 50] = .ok
      { calories := ((["Apple", "Banana"].zip [(100:ℚ), 50]).map
          (fun p => (lookup0 dbAB p.1).calories * (p.2 / 100))).sum
        protein := ((["Apple", "Banana"].zip [(100:ℚ), 50]).map
          (fun p => (lookup0 dbAB p.1).protein * (p.2 / 100))).sum
        carbs := ((["Apple", "Banana"].zip [(100:ℚ), 50]).map
          (fun p => (lookup0 dbAB p.1).carbs * (p.2 / 100))).sum
        fat := ((["Apple", "Banana"].zip [(100:ℚ), 50]).map
          (fun p => (lookup0 dbAB p.1).fat * (p.2 / 100))).sum
        fiber := ((["Apple", "Banana"].zip [(100:ℚ), 50]).map
          (fun p => (lookup0 dbAB p.1).fiber * (p.2 / 100))).sum
        vitamin_c := ((["Apple", "Banana"].zip [(100:ℚ), 50]).map
          (fun p => (lookup0 dbAB p.1).vitamin_c * (p.2 / 100))).sum
        iron := ((["Apple", "Banana"].zip [(100:ℚ), 50]).map
          (fun p => (lookup0 dbAB p.1).iron * (p.2 / 100))).sum
        calcium := ((["Apple", "Banana"].zip [(100:ℚ), 50]).map
          (fun p => (lookup0 dbAB p.1).calcium * (p.2 / 100))).sum } ∧
    analyze_daily_intake dbAB ["Banana", "Apple"] [50, 100] =
      analyze_daily_intake dbAB ["Apple", "Banana"] [100, 50] := by
  have hok : ∀ p ∈ ["Apple", "Banana"].zip [(100:ℚ), 50],
      ∃ r, get_food_nutrition dbAB p.1 = .ok r := by
    intro p hp
    simp only [List.zip_cons_cons, List.zip_nil_right, List.mem_cons,
      List.not_mem_nil, or_false] at hp
    rcases hp with h | h <;> subst h
    · exact ⟨appleRow, lookup_dbAB_Apple⟩
    · exact ⟨bananaRow, lookup_dbAB_Banana⟩
  have h := analyze_daily_intake_totals dbAB ["Apple", "Banana"] [100, 50] hok
  exact ⟨h.1, h.2 ["Banana", "Apple"] [50, 100] (List.Perm.swap _ _ _)⟩

theorem simLe_trans : ∀ a b c : String × ℚ,
    (fun a b : String × ℚ => decide (a.2 ≤ b.2)) a b →
    (fun a b : String × ℚ => decide (a.2 ≤ b.2)) b c →
    (fun a b : String × ℚ => decide (a.2 ≤ b.2)) a c := by
  intro a b c hab hbc
  simp only [decide_eq_true_eq] at hab hbc ⊢
  exact le_trans hab hbc

theorem simLe_total : ∀ a b : String × ℚ,
    ((fun a b : String × ℚ => decide (a.2 ≤ b.2)) a b ||
     (fun a b : String × ℚ => decide (a.2 ≤ b.2)) b a) := by
  intro a b
  simp only [Bool.or_eq_true, decide_eq_true_eq]
  exact le_total a.2 b.2

/-- C7 (amended): for every food present in the catalog,
`find_similar_foods` returns at most `maxResults` names, sorted
non-decreasingly by the 5-nutrient absolute-difference distance against
the target, every returned name naming a (category-filtered) catalog row
whose stored name differs from the QUERY STRING; self-exclusion compares
names case-sensitively, so only the query string itself is guaranteed
absent (see the counterexample for a differently-cased query). -/
theorem find_similar_foods_spec (db : List FoodRow) (food : String) (category : Option String)
    (k : Nat) (target : FoodRow) (h : get_food_nutrition db food = .ok target) :
    ∃ scored : List (String × ℚ),
      find_similar_foods db food category k = .ok (scored.map Prod.fst) ∧
      scored.length ≤ k ∧
      food ∉ scored.map Prod.fst ∧
      List.Pairwise (fun a b : String × ℚ => a.2 ≤ b.2) scored ∧
      ∀ q ∈ scored, ∃ r, r ∈ categoryFilter db category ∧ r.food = q.1 ∧ r.food ≠ food ∧
        q.2 = similarityScore target r := by
  refine ⟨((similarities target (categoryFilter db category) food).mergeSort
    (fun a b => decide (a.2 ≤ b.2))).take k, ?_, ?_, ?_, ?_, ?_⟩
  · simp [find_similar_foods, h, exceptBind_ok, exceptPure]
  · rw [List.length_take]
    exact min_le_left _ _
  · intro hmem
    simp only [List.mem_map] at hmem
    obtain ⟨q, hq, hfst⟩ := hmem
    have hq2 : q ∈ (similarities target (categoryFilter db category) food).mergeSort
        (fun a b => decide (a.2 ≤ b.2)) := List.mem_of_mem_take hq
    rw [List.mem_mergeSort] at hq2
    simp only [similarities, List.mem_map, List.mem_filter] at hq2
    obtain ⟨r, ⟨hr, hne⟩, hqr⟩ := hq2
    rw [← hqr] at hfst
    simp only [decide_eq_true_eq] at hne
    exact hne hfst
  · have hsorted := List.sorted_mergeSort simLe_trans simLe_total
      (similarities target (categoryFilter db category) food)
    have hsub := List.take_sublist k ((similarities target (categoryFilter db category)
      food).mergeSort (fun a b => decide (a.2 ≤ b.2)))
    exact (hsorted.sublist hsub).imp (fun hd => by
      simp only [decide_eq_true_eq] at hd
      exact hd)
  · intro q hq
    have hq2 : q ∈ (similarities target (categoryFilter db category) food).mergeSort
        (fun a b => decide (a.2 ≤ b.2)) := List.mem_of_mem_take hq
    rw [List.mem_mergeSort] at hq2
    simp only [similarities, List.mem_map, List.mem_filter] at hq2
    obtain ⟨r, ⟨hr, hne⟩, hqr⟩ := hq2
    simp only [decide_eq_true_eq] at hne
    exact ⟨r, hr, by rw [← hqr], hne, by rw [← hqr]⟩

/-- Witness for C7 at the Apple/Banana catalog with query "Apple". -/
theorem find_similar_foods_spec_witness :
    ∃ scored : List (String × ℚ),
      find_similar_foods dbAB "Apple" none 5 = .ok (scored.map Prod.fst) ∧
      scored.length ≤ 5 ∧
      "Apple" ∉ scored.map Prod.fst ∧
      List.Pairwise (fun a b : String × ℚ => a.2 ≤ b.2) scored ∧
      ∀ q ∈ scored, ∃ r, r ∈ categoryFilter dbAB none ∧ r.food = q.1 ∧ r.food ≠ "Apple" ∧
        q.2 = similarityScore appleRow r :=
  find_similar_foods_spec dbAB "Apple" none 5 appleRow lookup_dbAB_Apple

/-- C7 counterexample to the claim as stated: "apple" is present in
the catalog (stored as "Apple", lookup is case-insensitive), yet
`find_similar_foods` returns a list containing "Apple" -- the food
itself -- because the self-exclusion compares the stored name to the
query case-sensitively. -/
theorem find_similar_foods_includes_self :
    get_food_nutrition dbAB "apple" = .ok appleRow ∧ appleRow.food = "Apple" ∧
    ∃ l, find_similar_foods dbAB "apple" none 5 = .ok l ∧ "Apple" ∈ l := by
  refine ⟨lookup_dbAB_lc_apple, rfl,
    ⟨(((similarities appleRow (categoryFilter dbAB none) "apple").mergeSort
      (fun a b => decide (a.2 ≤ b.2))).take 5).map Prod.fst, ?_, ?_⟩⟩
  · simp [find_similar_foods, lookup_dbAB_lc_apple, exceptBind_ok, exceptPure]
  · have hlen : ((similarities appleRow (categoryFilter dbAB none) "apple").mergeSort
        (fun a b => decide (a.2 ≤ b.2))).length ≤ 5 := by
      rw [List.length_mergeSort]
      simp [similarities, categoryFilter, dbAB, appleRow, bananaRow]
    rw [List.take_of_length_le hlen]
    simp only [List.mem_map]
    refine ⟨(appleRow.food, similarityScore appleRow appleRow), ?_, rfl⟩
    rw [List.mem_mergeSort]
    simp only [similarities, categoryFilter, List.mem_map, List.mem_filter, dbAB,
      List.mem_cons, List.not_mem_nil, or_false, decide_eq_true_eq]
    refine ⟨appleRow, ⟨Or.inl rfl, ?_⟩, rfl⟩
    simp [appleRow]

/-- The collection loop with its early stop equals taking the first
`limit` entries of the full filtered survivor list (generalized over the
accumulator). -/
theorem collectRecommended_eq_take (db : List FoodRow) (gaps : List (Nutrient × ℚ))
    (intake : List (String × ℚ)) (limit : Nat) :
    ∀ (rows acc svs : List FoodRow),
      filterSurvivors db gaps intake rows = .ok svs →
      acc.length < limit →
      collectRecommended db gaps intake limit rows acc =
        .ok (acc.reverse ++ svs.take (limit - acc.length))
  | [], acc, svs, hs, _ => by
    simp only [filterSurvivors] at hs
    injection hs with hs2
    subst hs2
    simp [collectRecommended]
  | row :: rest, acc, svs, hs, hlt => by
    by_cases haddr : addresses_nutritional_gaps row gaps
    · rw [filterSurvivors, if_pos haddr] at hs
      rw [collectRecommended, if_pos haddr]
      cases hsim : is_similar_to_current_intake db row intake with
      | error e =>
        rw [hsim, exceptBind_error] at hs
        exact absurd hs (by simp)
      | ok sim =>
        rw [hsim, exceptBind_ok] at hs
        rw [exceptBind_ok]
        cases htail : filterSurvivors db gaps intake rest with
        | error e =>
          rw [htail, exceptBind_error] at hs
          exact absurd hs (by simp)
        | ok tail =>
          rw [htail, exceptBind_ok] at hs
          cases sim with
          | true =>
            rw [if_pos rfl] at hs
            injection hs with hs2
            subst hs2
            rw [if_pos rfl]
            exact collectRecommended_eq_take db gaps intake limit rest acc tail htail hlt
          | false =>
            rw [if_neg (by simp)] at hs
            injection hs with hs2
            subst hs2
            rw [if_neg (by simp)]
            by_cases hstop : limit ≤ acc.length + 1
            · rw [if_pos hstop]
              have hone : limit - acc.length = 1 := by omega
              rw [hone, List.take_succ_cons, List.take_zero, List.reverse_cons]
            · rw [if_neg hstop]
              have hrec := collectRecommended_eq_take db gaps intake limit rest (row :: acc)
                tail htail (by simp; omega)
              rw [hrec]
              have hsplit : limit - acc.length = (limit - (row :: acc).length) + 1 := by
                simp only [List.length_cons]
                omega
              rw [hsplit, List.take_succ_cons, List.reverse_cons, List.append_assoc]
              simp
    · rw [filterSurvivors, if_neg haddr] at hs
      rw [collectRecommended, if_neg haddr]
      exact collectRecommended_eq_take db gaps intake limit rest acc svs hs hlt

/-- With an empty current intake the collection loop never raises
(the similarity check performs no lookups). -/
theorem collect_empty_intake_ok (db : List FoodRow) (gaps : List (Nutrient × ℚ)) (limit : Nat) :
    ∀ (rows acc : List FoodRow), ∃ l, collectRecommended db gaps [] limit rows acc = .ok l
  | [], acc => ⟨acc.reverse, rfl⟩
  | row :: rest, acc => by
    by_cases haddr : addresses_nutritional_gaps row gaps
    · rw [collectRecommended, if_pos haddr]
      rw [show is_similar_to_current_intake db row [] = .ok false from rfl, exceptBind_ok]
      rw [if_neg (by simp)]
      by_cases hstop : limit ≤ acc.length + 1
      · exact ⟨_, by rw [if_pos hstop]⟩
      · rw [if_neg hstop]
        exact collect_empty_intake_ok db gaps limit rest (row :: acc)
    · rw [collectRecommended, if_neg haddr]
      exact collect_empty_intake_ok db gaps limit rest acc

/-- C9: with an empty intake list, the recommendation call succeeds for
every profile, and the three tracked gaps equal the full needs:
the Mifflin-St Jeor calorie need times the activity multiplier,
`weight * 1.0` grams of protein, and 25 g of fiber. -/
theorem recommend_empty_intake (db : List FoodRow) (p : UserProfile) (restr : List String)
    (n : Nat) :
    (∃ l, get_personalized_recommendations db p [] restr n = .ok l) ∧
    analyze_daily_intake db [] [] = .ok initTotals ∧
    calculate_nutritional_gaps initTotals p =
      [(.calories, (if pyLower p.gender = "male"
          then 10 * p.weight + 6.25 * p.height - 5 * p.age + 5
          else 10 * p.weight + 6.25 * p.height - 5 * p.age - 161) *
          activity_multipliers (pyLower p.activity_level)),
       (.protein, p.weight),
       (.fiber, 25)] := by
  refine ⟨?_, rfl, ?_⟩
  · obtain ⟨l, hl⟩ := collect_empty_intake_ok db (calculate_nutritional_gaps initTotals p)
      (n * 2) (restr.foldl applyRestriction db) []
    refine ⟨((l.mergeSort (fun a b =>
      decide (nutritional_gap_score b (calculate_nutritional_gaps initTotals p) ≤
        nutritional_gap_score a (calculate_nutritional_gaps initTotals p)))).take n).map
          toSummary, ?_⟩
    simp only [get_personalized_recommendations, List.map_nil]
    rw [show analyze_daily_intake db [] [] = .ok initTotals from rfl, exceptBind_ok, hl,
      exceptBind_ok]
    rfl
  · norm_num [calculate_nutritional_gaps, calculate_calorie_needs, calculate_protein_needs,
      initTotals]

theorem pyLower_male : pyLower "male" = "male" := by decide

theorem pyLower_moderate : pyLower "moderate" = "moderate" := by decide

/-- The concrete gaps for `profileM` on an empty intake:
BMR 1617.5 x 1.55 = 20057/8 calories, 70 g protein, 25 g fiber. -/
theorem gapsM_eval : calculate_nutritional_gaps initTotals profileM =
    [(.calories, 20057/8), (.protein, 70), (.fiber, 25)] := by
  simp only [calculate_nutritional_gaps, calculate_calorie_needs, calculate_protein_needs,
    profileM, initTotals, pyLower_male, pyLower_moderate, activity_multipliers]
  simp
  norm_num

theorem addresses_rowA : addresses_nutritional_gaps rowA
    (calculate_nutritional_gaps initTotals profileM) = true := by
  rw [gapsM_eval]
  simp only [addresses_nutritional_gaps, List.filterMap_cons, List.filterMap_nil,
    FoodRow.nval, rowA]
  norm_num

theorem addresses_rowB : addresses_nutritional_gaps rowB
    (calculate_nutritional_gaps initTotals profileM) = true := by
  rw [gapsM_eval]
  simp only [addresses_nutritional_gaps, List.filterMap_cons, List.filterMap_nil,
    FoodRow.nval, rowB]
  norm_num

theorem addresses_rowC : addresses_nutritional_gaps rowC
    (calculate_nutritional_gaps initTotals profileM) = true := by
  rw [gapsM_eval]
  simp only [addresses_nutritional_gaps, List.filterMap_cons, List.filterMap_nil,
    FoodRow.nval, rowC]
  norm_num

theorem scoreA : nutritional_gap_score rowA
    (calculate_nutritional_gaps initTotals profileM) = 1/5 := by
  rw [gapsM_eval]
  simp only [nutritional_gap_score, List.foldl_cons, List.foldl_nil, FoodRow.nval, rowA]
  norm_num

theorem scoreB : nutritional_gap_score rowB
    (calculate_nutritional_gaps initTotals profileM) = 3/10 := by
  rw [gapsM_eval]
  simp only [nutritional_gap_score, List.foldl_cons, List.foldl_nil, FoodRow.nval, rowB]
  norm_num

theorem scoreC : nutritional_gap_score rowC
    (calculate_nutritional_gaps initTotals profileM) = 1 := by
  rw [gapsM_eval]
  simp only [nutritional_gap_score, List.foldl_cons, List.foldl_nil, FoodRow.nval, rowC]
  norm_num

theorem survivorsABC : filterSurvivors dbABC
    (calculate_nutritional_gaps initTotals profileM) [] dbABC = .ok [rowA, rowB, rowC] := by
  have h3 : filterSurvivors dbABC (calculate_nutritional_gaps initTotals profileM) []
      [rowC] = .ok [rowC] := by
    rw [filterSurvivors, if_pos addresses_rowC,
      show is_similar_to_current_intake dbABC rowC [] = .ok false from rfl, exceptBind_ok,
      show filterSurvivors dbABC (calculate_nutritional_gaps initTotals profileM) [] [] =
        .ok [] from rfl, exceptBind_ok, if_neg (by simp)]
    rfl
  have h2 : filterSurvivors dbABC (calculate_nutritional_gaps initTotals profileM) []
      [rowB, rowC] = .ok [rowB, rowC] := by
    rw [filterSurvivors, if_pos addresses_rowB,
      show is_similar_to_current_intake dbABC rowB [] = .ok false from rfl, exceptBind_ok,
      h3, exceptBind_ok, if_neg (by simp)]
    rfl
  show filterSurvivors dbABC (calculate_nutritional_gaps initTotals profileM) []
    [rowA, rowB, rowC] = .ok [rowA, rowB, rowC]
  rw [filterSurvivors, if_pos addresses_rowA,
    show is_similar_to_current_intake dbABC rowA [] = .ok false from rfl, exceptBind_ok,
    h2, exceptBind_ok, if_neg (by simp)]
  rfl

/-- C8 (amended): the engine scores candidates by the sum over open
positive gaps of `value/gap`, but collects only the first
`2 * count` candidates (in catalog order) surviving the
gap-contribution and similarity filters -- stopping the scan early --
then sorts those collected candidates descending by score and returns
the first `count`, summarized by `toSummary`. -/
theorem get_personalized_recommendations_spec (db : List FoodRow) (p : UserProfile)
    (intake : List (String × ℚ)) (restr : List String) (n : Nat) (tot : Totals)
    (svs : List FoodRow) (hn : 0 < n)
    (ha : analyze_daily_intake db (intake.map Prod.fst) (intake.map Prod.snd) = .ok tot)
    (hs : filterSurvivors db (calculate_nutritional_gaps tot p) intake
        (restr.foldl applyRestriction db) = .ok svs) :
    get_personalized_recommendations db p intake restr n =
      .ok ((((svs.take (n * 2)).mergeSort (fun a b =>
          decide (nutritional_gap_score b (calculate_nutritional_gaps tot p) ≤
            nutritional_gap_score a (calculate_nutritional_gaps tot p)))).take n).map
              toSummary) ∧
    (((svs.take (n * 2)).mergeSort (fun a b =>
        decide (nutritional_gap_score b (calculate_nutritional_gaps tot p) ≤
          nutritional_gap_score a (calculate_nutritional_gaps tot p)))).take n).Pairwise
      (fun a b => nutritional_gap_score b (calculate_nutritional_gaps tot p) ≤
        nutritional_gap_score a (calculate_nutritional_gaps tot p)) ∧
    ((((svs.take (n * 2)).mergeSort (fun a b =>
        decide (nutritional_gap_score b (calculate_nutritional_gaps tot p) ≤
          nutritional_gap_score a (calculate_nutritional_gaps tot p)))).take n).map
            toSummary).length ≤ n := by
  have hcollect := collectRecommended_eq_take db (calculate_nutritional_gaps tot p) intake
    (n * 2) (restr.foldl applyRestriction db) [] svs hs (by simp; omega)
  simp only [List.reverse_nil, List.nil_append, List.length_nil, Nat.sub_zero] at hcollect
  refine ⟨?_, ?_, ?_⟩
  · simp only [get_personalized_recommendations]
    rw [ha, exceptBind_ok, hcollect, exceptBind_ok]
    rfl
  · refine ((List.sorted_mergeSort ?_ ?_ (svs.take (n * 2))).sublist
      (List.take_sublist n _)).imp ?_
    · intro a b c hab hbc
      simp only [decide_eq_true_eq] at hab hbc ⊢
      exact le_trans hbc hab
    · intro a b
      simp only [Bool.or_eq_true, decide_eq_true_eq]
      exact le_total _ _
    · intro a b h
      simpa using h
  · simp only [List.length_map, List.length_take]
    exact min_le_left _ _

/-- Witness for C8 at the three-row catalog, count 1. -/
theorem get_personalized_recommendations_spec_witness :
    get_personalized_recommendations dbABC profileM [] [] 1 =
      .ok (((([rowA, rowB, rowC].take (1 * 2)).mergeSort (fun a b =>
          decide (nutritional_gap_score b (calculate_nutritional_gaps initTotals profileM) ≤
            nutritional_gap_score a (calculate_nutritional_gaps initTotals profileM)))).take
              1).map toSummary) ∧
    ((([rowA, rowB, rowC].take (1 * 2)).mergeSort (fun a b =>
        decide (nutritional_gap_score b (calculate_nutritional_gaps initTotals profileM) ≤
          nutritional_gap_score a (calculate_nutritional_gaps initTotals profileM)))).take
            1).Pairwise
      (fun a b => nutritional_gap_score b (calculate_nutritional_gaps initTotals profileM) ≤
        nutritional_gap_score a (calculate_nutritional_gaps initTotals profileM)) ∧
    (((([rowA, rowB, rowC].take (1 * 2)).mergeSort (fun a b =>
        decide (nutritional_gap_score b (calculate_nutritional_gaps initTotals profileM) ≤
          nutritional_gap_score a (calculate_nutritional_gaps initTotals profileM)))).take
            1).map toSummary).length ≤ 1 :=
  get_personalized_recommendations_spec dbABC profileM [] [] 1 initTotals [rowA, rowB, rowC]
    (by norm_num) rfl survivorsABC

/-- C8 counterexample to the claim as stated: with count 1 the engine
stops scanning after two survivors (FoodA, FoodB) and returns FoodB,
while scoring ALL surviving candidates (the claim's reading, embodied by
`claimed_recommendations`) would return FoodC, the highest-scoring
survivor. -/
theorem get_personalized_recommendations_ignores_late_candidates :
    get_personalized_recommendations dbABC profileM [] [] 1 = .ok [toSummary rowB] ∧
    claimed_recommendations dbABC profileM [] [] 1 = .ok [toSummary rowC] ∧
    toSummary rowB ≠ toSummary rowC := by
  refine ⟨?_, ?_, ?_⟩
  · simp only [get_personalized_recommendations, List.map_nil]
    rw [show analyze_daily_intake dbABC [] [] = .ok initTotals from rfl, exceptBind_ok]
    have hcol : collectRecommended dbABC (calculate_nutritional_gaps initTotals profileM) []
        (1 * 2) (List.foldl applyRestriction dbABC []) [] = .ok [rowA, rowB] := by
      rw [show List.foldl applyRestriction dbABC ([] : List String) = [rowA, rowB, rowC]
        from rfl]
      rw [collectRecommended, if_pos addresses_rowA,
        show is_similar_to_current_intake dbABC rowA [] = .ok false from rfl, exceptBind_ok,
        if_neg (by simp), if_neg (by norm_num)]
      rw [collectRecommended, if_pos addresses_rowB,
        show is_similar_to_current_intake dbABC rowB [] = .ok false from rfl, exceptBind_ok,
        if_neg (by simp), if_pos (by norm_num)]
      rfl
    rw [hcol, exceptBind_ok]
    have hms : [rowA, rowB].mergeSort (fun a b =>
        decide (nutritional_gap_score b (calculate_nutritional_gaps initTotals profileM) ≤
          nutritional_gap_score a (calculate_nutritional_gaps initTotals profileM))) =
        [rowB, rowA] := by
      norm_num [List.mergeSort, List.merge, scoreA, scoreB]
    rw [hms]
    rfl
  · simp only [claimed_recommendations, List.map_nil]
    rw [show analyze_daily_intake dbABC [] [] = .ok initTotals from rfl, exceptBind_ok]
    rw [show List.foldl applyRestriction dbABC ([] : List String) = dbABC from rfl]
    rw [survivorsABC, exceptBind_ok]
    have hms : [rowA, rowB, rowC].mergeSort (fun a b =>
        decide (nutritional_gap_score b (calculate_nutritional_gaps initTotals profileM) ≤
          nutritional_gap_score a (calculate_nutritional_gaps initTotals profileM))) =
        [rowC, rowB, rowA] := by
      norm_num [List.mergeSort, List.merge, scoreA, scoreB, scoreC]
    rw [hms]
    rfl
  · simp [toSummary, rowB, rowC]

end NutriGenie
